import Mathlib

/-!
# Verification of the megalodon-rs core

A shallow embedding of the core of the `megalodon-rs` client library:
the flavor detector (`detector` in `src/lib.rs`), the flavor enumeration
`SNS` with its `Display` and `FromStr` implementations, the backend
factory (`generator`), the response envelope (`src/response.rs`), and the
recursive `Account` entity (`src/entities/account.rs`).

Rust `Result` is embedded as `Except`, `Option` as `Option`, owned boxes
as plain inductive values, `HeaderMap` as an association list of strings,
and the network as an explicit `ServerBehavior` record describing what
each probed endpoint returns.
-/

/-- Errors produced by the library core.  `transport` stands for a
`reqwest` send/connection error, `decode` for a JSON body that did not
decode as the expected type.  In the source both arrive as
`error::Error` via `From<reqwest::Error>`. -/
inductive Error where
  | transport (msg : String)
  | decode (msg : String)
deriving DecidableEq, Repr

/-- Modelled from the spec: the nested URL collection of the Probe
Result (`entities::URLs`, whose definition is not under `src/`). -/
structure URLs where
  streaming_api : String
deriving DecidableEq, Repr

/-- Modelled from the spec: the backend-specific marker object
(`pleroma::entities::instance::PleromaConfig`, not under `src/`).  The
spec states that only its presence, never its content, matters to
detection; we give it opaque string content so that the
content-irrelevance is expressible. -/
structure PleromaConfig where
  content : String
deriving DecidableEq, Repr

/-- The Probe Result decoded from `GET {base_url}/api/v1/instance`
(`struct Instance` in `src/lib.rs`): title, canonical URI, nested URL
collection, version string, and the optional Pleroma marker. -/
structure Instance where
  title : String
  uri : String
  urls : URLs
  version : String
  pleroma : Option PleromaConfig
deriving DecidableEq, Repr

/-- The flavor enumeration `SNS` from `src/lib.rs`. -/
inductive SNS where
  | Mastodon
  | Pleroma
  | Misskey
deriving DecidableEq, Repr

/-- Embedding of `impl fmt::Display for SNS` from `src/lib.rs`: render
a flavor to its lowercase token. -/
def SNS.fmt : SNS → String
  | SNS.Mastodon => "mastodon"
  | SNS.Pleroma => "pleroma"
  | SNS.Misskey => "misskey"

instance : ToString SNS := ⟨SNS.fmt⟩

/-- Embedding of `impl FromStr for SNS` from `src/lib.rs`: parse a
lowercase token; any other string is an error carrying the message
built by the format string "Unknown sns: ". -/
def SNS.from_str (s : String) : Except String SNS :=
  match s with
  | "mastodon" => Except.ok SNS.Mastodon
  | "pleroma" => Except.ok SNS.Pleroma
  | "misskey" => Except.ok SNS.Misskey
  | _ => Except.error ("Unknown sns: " ++ s)

/-- The observable behavior of the server at one base URL, as seen by
`detector`.  `instanceGet` is the result of `client.get(url ++
"/api/v1/instance").send()` followed by the body decode: the outer
`Except` is the send result (`res` in the source), the inner one the
result of `res.json::<Instance>()`.  `metaPost` is the result of
`client.post(url ++ "/api/meta").send()`. -/
structure ServerBehavior where
  instanceGet : Except Error (Except Error Instance)
  metaPost : Except Error Unit
deriving Repr

/-- The flavor detector (`pub async fn detector` in `src/lib.rs`),
with the two HTTP calls abstracted into a `ServerBehavior`.  The match
structure mirrors the source exactly: on a successful GET the body is
decoded and the `pleroma` field inspected (`if let Some(_pleroma)`);
a decode error is returned as-is; only a failed GET falls back to the
POST, whose success means Misskey and whose failure is propagated. -/
def detector (s : ServerBehavior) : Except Error SNS :=
  match s.instanceGet with
  | Except.ok res =>
    match res with
    | Except.ok json =>
      match json.pleroma with
      | some _pleroma => Except.ok SNS.Pleroma
      | none => Except.ok SNS.Mastodon
    | Except.error err => Except.error err
  | Except.error _ =>
    match s.metaPost with
    | Except.ok _ => Except.ok SNS.Misskey
    | Except.error err => Except.error err

/-- Modelled from the spec: the Mastodon backend adapter
(`mastodon::Mastodon`, not under `src/`), which "owns its base URL,
optional credential, and user-agent"; `Mastodon::new` stores them. -/
structure Mastodon where
  base_url : String
  access_token : Option String
  user_agent : Option String
deriving DecidableEq, Repr

/-- Modelled from the spec: the Pleroma backend adapter
(`pleroma::Pleroma`, not under `src/`), same identity fields. -/
structure Pleroma where
  base_url : String
  access_token : Option String
  user_agent : Option String
deriving DecidableEq, Repr

def Mastodon.new (base_url : String) (access_token user_agent : Option String) :
    Mastodon :=
  { base_url := base_url, access_token := access_token, user_agent := user_agent }

def Pleroma.new (base_url : String) (access_token user_agent : Option String) :
    Pleroma :=
  { base_url := base_url, access_token := access_token, user_agent := user_agent }

/-- The boxed trait object `Box<dyn Megalodon + Send + Sync>` returned
by the factory: a closed union of the concrete adapters the factory can
construct. -/
inductive MegalodonClient where
  | mastodonClient (m : Mastodon)
  | pleromaClient (p : Pleroma)
deriving DecidableEq, Repr

/-- The flavor a constructed adapter actually serves: the concrete
adapter type behind the boxed interface. -/
def MegalodonClient.flavor : MegalodonClient → SNS
  | MegalodonClient.mastodonClient _ => SNS.Mastodon
  | MegalodonClient.pleromaClient _ => SNS.Pleroma

/-- The base URL stored in the constructed adapter. -/
def MegalodonClient.base_url : MegalodonClient → String
  | MegalodonClient.mastodonClient m => m.base_url
  | MegalodonClient.pleromaClient p => p.base_url

/-- The credential stored in the constructed adapter. -/
def MegalodonClient.access_token : MegalodonClient → Option String
  | MegalodonClient.mastodonClient m => m.access_token
  | MegalodonClient.pleromaClient p => p.access_token

/-- The user-agent stored in the constructed adapter. -/
def MegalodonClient.user_agent : MegalodonClient → Option String
  | MegalodonClient.mastodonClient m => m.user_agent
  | MegalodonClient.pleromaClient p => p.user_agent

/-- The backend factory (`pub fn generator` in `src/lib.rs`): `Pleroma`
builds the Pleroma adapter, the catch-all `_` arm (covering `Mastodon`
and `Misskey`) builds the Mastodon adapter.  A pure total function: the
return type has no error case, mirroring the non-`Result` Rust
signature. -/
def generator (sns : SNS) (base_url : String)
    (access_token : Option String) (user_agent : Option String) :
    MegalodonClient :=
  match sns with
  | SNS.Pleroma =>
    MegalodonClient.pleromaClient (Pleroma.new base_url access_token user_agent)
  | _ =>
    MegalodonClient.mastodonClient (Mastodon.new base_url access_token user_agent)

/-- The header collection `reqwest::header::HeaderMap`, embedded as an
association list of header name/value pairs. -/
def HeaderMap : Type := List (String × String)

instance : DecidableEq HeaderMap := by
  unfold HeaderMap
  infer_instance

/-- The response envelope `Response<T>` from `src/response.rs`: parsed
payload, numeric status code (`u16`), status text, and headers. -/
structure Response (T : Type) where
  json : T
  status : Nat
  status_text : String
  header : HeaderMap

/-- Embedding of `Response::new` from `src/response.rs`: build the
envelope directly from the four field values. -/
def Response.new (json : T) (status : Nat) (status_text : String)
    (header : HeaderMap) : Response T :=
  { json := json, status := status, status_text := status_text, header := header }

/-- Embedding of `Response::json` from `src/response.rs`, which
returns `self.json.clone()`.  A
derived `Clone` on plain data is observationally the identity, so the
clone of the payload is the payload itself; the receiver is `&self`, so
the envelope it is read from is returned unchanged.  The pair captures
both: the extracted payload and the envelope after the call. -/
def Response.jsonClone (r : Response T) : T × Response T :=
  (r.json, r)

/-- A raw `reqwest::Response` as consumed by `Response::from_reqwest`:
its headers, status code, status text, and the one-shot body read
(`response.text()`), which can itself fail at the transport layer. -/
structure ReqwestResponse where
  headers : HeaderMap
  status : Nat
  status_text : String
  text : Except Error String

/-- The observable steps `from_reqwest` performs on the one-shot
transport object, in order. -/
inductive RespEvent where
  | capturedHeaders
  | capturedStatus
  | consumedBody
deriving DecidableEq, Repr

/-- What `Response::from_reqwest` in `src/response.rs` produces:
nothing normal.  It can propagate a transport error from
`response.text().await?`, and in every other case it reaches the
`todo!()` macro, which panics; no `Response<T>` and no decode error is
ever constructed. -/
inductive FromReqwestOutcome (T : Type) where
  | ok (r : Response T)
  | transportErr (e : Error)
  | panickedAtTodo

/-- Embedding of `Response::from_reqwest` from `src/response.rs`, together
with the trace of operations it performs on the one-shot transport
object.  The source clones the headers, reads the status, prints the
status, then prints the body text (`response.text().await?`, consuming
the body and propagating a transport failure), and then hits
`todo!()`.  The trace records the source order: headers, then status,
then body consumption. -/
def Response.from_reqwest (T : Type) (response : ReqwestResponse) :
    List RespEvent × FromReqwestOutcome T :=
  let header := response.headers
  let status_code := response.status
  let trace := [RespEvent.capturedHeaders, RespEvent.capturedStatus,
    RespEvent.consumedBody]
  match response.text with
  | Except.error e =>
    let _ := (header, status_code)
    (trace, FromReqwestOutcome.transportErr e)
  | Except.ok _body =>
    (trace, FromReqwestOutcome.panickedAtTodo)

/-- Modelled from the spec: the custom emoji entity (`entities::Emoji`,
not under `src/`); only its existence matters to the Account shape. -/
structure Emoji where
  shortcode : String
  url : String
deriving DecidableEq, Repr

/-- Modelled from the spec: the profile metadata field entity
(`entities::Field`, not under `src/`). -/
structure MetaField where
  name : String
  value : String
deriving DecidableEq, Repr

/-- Modelled from the spec: the profile source entity
(`entities::Source`, not under `src/`). -/
structure Source where
  note : String
deriving DecidableEq, Repr

/-- The timestamp type `chrono::DateTime<Utc>`, embedded as a count of
nanoseconds since the epoch. -/
structure DateTimeUtc where
  epochNanos : Int
deriving DecidableEq, Repr

/-- The `Account` entity from `src/entities/account.rs`.  The Rust
struct owns its `moved` target through `Option<Box<Account>>`: a
single-owner heap indirection, embedded here as a nested inductive —
an inductive value is exactly an owned finite tree, which is what
single-owner boxes without sharing can build.  Field order and names
follow the source; `u32` counts become `Nat` (no arithmetic is done on
them). -/
inductive Account where
  | mk
    (id : String)
    (username : String)
    (acct : String)
    (display_name : String)
    (locked : Bool)
    (discoverable : Option Bool)
    (group : Option Bool)
    (created_at : DateTimeUtc)
    (followers_count : Nat)
    (following_count : Nat)
    (statuses_count : Nat)
    (note : String)
    (url : String)
    (avatar : String)
    (avatar_static : String)
    (header : String)
    (header_static : String)
    (emojis : List Emoji)
    (moved : Option Account)
    (fields : List MetaField)
    (bot : Bool)
    (source : Source)

/-- The `moved` field of an `Account`. -/
def Account.moved : Account → Option Account
  | Account.mk _ _ _ _ _ _ _ _ _ _ _ _ _ _ _ _ _ _ moved _ _ _ => moved

/-- The account reached from `a` by following the `moved` reference one
or more times. -/
inductive MovedReaches : Account → Account → Prop where
  | direct (a b : Account) : a.moved = some b → MovedReaches a b
  | step (a b c : Account) : a.moved = some b → MovedReaches b c →
      MovedReaches a c

/-- A concrete account with no `moved` target. -/
def sampleTarget : Account :=
  Account.mk "1" "alice" "alice" "Alice" false none none
    { epochNanos := 0 } 0 0 0 "" "https://example.test/@alice" "" "" "" ""
    [] none [] false { note := "" }

/-- A concrete account whose `moved` field points at `sampleTarget`. -/
def sampleMover : Account :=
  Account.mk "2" "bob" "bob" "Bob" false none none
    { epochNanos := 0 } 0 0 0 "" "https://example.test/@bob" "" "" "" ""
    [] (some sampleTarget) [] false { note := "" }

/-- Following one `moved` link strictly decreases the size of the
owned value: the target of the box is a structurally smaller value
than its owner. -/
theorem Account.moved_sizeOf_lt (a b : Account) (h : a.moved = some b) :
    sizeOf b < sizeOf a := by
  cases a with
  | mk id username acct display_name locked discoverable group created_at
      followers_count following_count statuses_count note url avatar
      avatar_static header header_static emojis moved fields bot source =>
    cases moved with
    | none => simp [Account.moved] at h
    | some c =>
      simp [Account.moved] at h
      subst h
      simp
      omega

/-- Any account reachable through the `moved` chain is strictly
smaller than the starting account. -/
theorem movedReaches_sizeOf_lt (a b : Account) (h : MovedReaches a b) :
    sizeOf b < sizeOf a := by
  induction h with
  | direct x y hxy => exact Account.moved_sizeOf_lt x y hxy
  | step x y z hxy _hyz ih =>
    exact lt_trans ih (Account.moved_sizeOf_lt x y hxy)

/-- C2: for every response of the primary probe that decodes as an
`Instance`, the detector returns Pleroma when the `pleroma` marker is
present — whatever its content — and Mastodon when it is absent. -/
theorem detector_marker_presence_discriminates (s : ServerBehavior)
    (inst : Instance) (h : s.instanceGet = Except.ok (Except.ok inst)) :
    (∀ c : PleromaConfig, inst.pleroma = some c →
      detector s = Except.ok SNS.Pleroma) ∧
    (inst.pleroma = none → detector s = Except.ok SNS.Mastodon) := by
  constructor
  · intro c hc
    simp [detector, h, hc]
  · intro hn
    simp [detector, h, hn]

/-- Witness for C2: a concrete behavior whose probe body carries the
marker is classified Pleroma, one without it is classified Mastodon. -/
theorem detector_marker_presence_discriminates_witness :
    detector
      { instanceGet := Except.ok (Except.ok
          { title := "t", uri := "https://p.test", urls := { streaming_api := "wss" },
            version := "2.7.2", pleroma := some { content := "cfg" } }),
        metaPost := Except.error (Error.transport "down") } =
      Except.ok SNS.Pleroma ∧
    detector
      { instanceGet := Except.ok (Except.ok
          { title := "t", uri := "https://m.test", urls := { streaming_api := "wss" },
            version := "4.2.0", pleroma := none }),
        metaPost := Except.error (Error.transport "down") } =
      Except.ok SNS.Mastodon :=
  ⟨(detector_marker_presence_discriminates _ _ rfl).1 _ rfl,
   (detector_marker_presence_discriminates _ _ rfl).2 rfl⟩

/-- C1 counterexample: a server whose primary GET succeeds but whose
body does not decode, while the secondary POST would succeed.  The
claim predicts fallback and classification as Misskey; the code
propagates the decode error and never issues the fallback. -/
theorem detector_decode_error_no_fallback_cex :
    detector
      { instanceGet := Except.ok (Except.error (Error.decode "invalid body")),
        metaPost := Except.ok () } =
      Except.error (Error.decode "invalid body") ∧
    detector
      { instanceGet := Except.ok (Except.error (Error.decode "invalid body")),
        metaPost := Except.ok () } ≠
      Except.ok SNS.Misskey := by
  refine ⟨rfl, ?_⟩
  intro h
  simp [detector] at h

/-- C1 amended: only a network-level failure of the primary GET
triggers the fallback POST — secondary success classifies as Misskey
and secondary failure propagates the secondary error — while a
successful GET whose body does not decode propagates the decode error
directly, with no fallback. -/
theorem detector_fallback_on_send_failure (s : ServerBehavior) :
    (∀ err : Error, s.instanceGet = Except.error err →
      ((s.metaPost = Except.ok () → detector s = Except.ok SNS.Misskey) ∧
       (∀ e2 : Error, s.metaPost = Except.error e2 →
          detector s = Except.error e2))) ∧
    (∀ e : Error, s.instanceGet = Except.ok (Except.error e) →
      detector s = Except.error e) := by
  refine ⟨fun err herr => ⟨fun hok => ?_, fun e2 he2 => ?_⟩, fun e he => ?_⟩
  · simp [detector, herr, hok]
  · simp [detector, herr, he2]
  · simp [detector, he]

/-- Witness for C1: with the primary GET failing at the network level,
a successful POST yields Misskey and a failing POST yields the
secondary error. -/
theorem detector_fallback_on_send_failure_witness :
    detector
      { instanceGet := Except.error (Error.transport "refused"),
        metaPost := Except.ok () } = Except.ok SNS.Misskey ∧
    detector
      { instanceGet := Except.error (Error.transport "refused"),
        metaPost := Except.error (Error.transport "404") } =
      Except.error (Error.transport "404") :=
  ⟨((detector_fallback_on_send_failure _).1 (Error.transport "refused") rfl).1 rfl,
   ((detector_fallback_on_send_failure _).1 (Error.transport "refused") rfl).2
      (Error.transport "404") rfl⟩

/-- C3: each of the three tokens parses to a flavor that renders back
to the identical token, and every other string is a parse error. -/
theorem sns_parse_then_render_roundtrip :
    (SNS.from_str "mastodon" = Except.ok SNS.Mastodon ∧
      SNS.fmt SNS.Mastodon = "mastodon") ∧
    (SNS.from_str "pleroma" = Except.ok SNS.Pleroma ∧
      SNS.fmt SNS.Pleroma = "pleroma") ∧
    (SNS.from_str "misskey" = Except.ok SNS.Misskey ∧
      SNS.fmt SNS.Misskey = "misskey") ∧
    (∀ s : String, s ≠ "mastodon" → s ≠ "pleroma" → s ≠ "misskey" →
      SNS.from_str s = Except.error ("Unknown sns: " ++ s)) := by
  refine ⟨⟨rfl, rfl⟩, ⟨rfl, rfl⟩, ⟨rfl, rfl⟩, fun s h1 h2 h3 => ?_⟩
  unfold SNS.from_str
  split
  · contradiction
  · contradiction
  · contradiction
  · rfl

/-- Witness for C3: a string outside the three tokens parses to the
expected error. -/
theorem sns_parse_then_render_roundtrip_witness :
    SNS.from_str "friendica" = Except.error ("Unknown sns: " ++ "friendica") :=
  sns_parse_then_render_roundtrip.2.2.2 "friendica"
    (by decide) (by decide) (by decide)

/-- C10: rendering any flavor and parsing the result yields the same
flavor back, and rendering always lands in the three-token set. -/
theorem sns_render_then_parse_roundtrip (v : SNS) :
    SNS.from_str (SNS.fmt v) = Except.ok v ∧
    (SNS.fmt v = "mastodon" ∨ SNS.fmt v = "pleroma" ∨
      SNS.fmt v = "misskey") := by
  cases v with
  | Mastodon => exact ⟨rfl, Or.inl rfl⟩
  | Pleroma => exact ⟨rfl, Or.inr (Or.inl rfl)⟩
  | Misskey => exact ⟨rfl, Or.inr (Or.inr rfl)⟩

/-- C4 counterexample: the Misskey flavor does not construct a
Misskey-specific adapter; it falls into the catch-all arm and gets the
Mastodon adapter, the same concrete type the Mastodon flavor gets. -/
theorem generator_misskey_default_cex :
    (generator SNS.Misskey "https://example.test" none none).flavor ≠
      SNS.Misskey ∧
    (generator SNS.Misskey "https://example.test" none none).flavor =
      SNS.Mastodon ∧
    generator SNS.Misskey "https://example.test" none none =
      generator SNS.Mastodon "https://example.test" none none := by
  refine ⟨?_, rfl, rfl⟩
  intro h
  simp [generator, MegalodonClient.flavor, Mastodon.new] at h

/-- C4 amended: Pleroma maps to the Pleroma adapter and Mastodon to
the Mastodon adapter, but Misskey — a recognized flavor — also falls
into the catch-all arm and maps to the default Mastodon adapter. -/
theorem generator_flavor_mapping (base_url : String)
    (access_token user_agent : Option String) :
    (generator SNS.Mastodon base_url access_token user_agent).flavor =
      SNS.Mastodon ∧
    (generator SNS.Pleroma base_url access_token user_agent).flavor =
      SNS.Pleroma ∧
    (generator SNS.Misskey base_url access_token user_agent).flavor =
      SNS.Mastodon :=
  ⟨rfl, rfl, rfl⟩

/-- C5: the factory is a pure total function — its type admits no
error case and no effect, and for every flavor it returns a client
storing exactly the given base URL, credential, and user-agent,
unvalidated. -/
theorem generator_pure_total_construction (sns : SNS) (base_url : String)
    (access_token user_agent : Option String) :
    (generator sns base_url access_token user_agent).base_url = base_url ∧
    (generator sns base_url access_token user_agent).access_token =
      access_token ∧
    (generator sns base_url access_token user_agent).user_agent =
      user_agent := by
  cases sns <;> exact ⟨rfl, rfl, rfl⟩

/-- C6, evaluated at the failing input: a response with valid status
200 and headers whose body is readable but not the expected shape.
The construction never produces a decode error carrying the status and
headers — it reaches the `todo!()` macro and panics, so the claimed
contract is unimplemented in the code. -/
theorem from_reqwest_reaches_todo :
    (Response.from_reqwest Instance
      { headers := [("content-type", "application/json")], status := 200,
        status_text := "OK",
        text := Except.ok "not an Instance" }).2 =
      FromReqwestOutcome.panickedAtTodo := rfl

/-- C7: for every input response, the construction captures the
headers and the status strictly before consuming the body: in its
operation trace both capture events occur, and each occurs at an
earlier position than the body-consumption event. -/
theorem from_reqwest_captures_before_consuming (T : Type)
    (resp : ReqwestResponse) :
    RespEvent.capturedHeaders ∈ (Response.from_reqwest T resp).1 ∧
    RespEvent.capturedStatus ∈ (Response.from_reqwest T resp).1 ∧
    RespEvent.consumedBody ∈ (Response.from_reqwest T resp).1 ∧
    (Response.from_reqwest T resp).1.indexOf RespEvent.capturedHeaders <
      (Response.from_reqwest T resp).1.indexOf RespEvent.consumedBody ∧
    (Response.from_reqwest T resp).1.indexOf RespEvent.capturedStatus <
      (Response.from_reqwest T resp).1.indexOf RespEvent.consumedBody := by
  have htrace : (Response.from_reqwest T resp).1 =
      [RespEvent.capturedHeaders, RespEvent.capturedStatus,
        RespEvent.consumedBody] := by
    unfold Response.from_reqwest
    cases resp.text <;> rfl
  rw [htrace]
  refine ⟨by simp, by simp, by simp, ?_, ?_⟩ <;> decide

/-- C8: an envelope built via `Response::new` holds exactly the four
given field values; extracting the payload returns the payload itself
and leaves the envelope it was read from unchanged. -/
theorem response_envelope_fields_immutable (T : Type) (j : T) (s : Nat)
    (t : String) (hm : HeaderMap) :
    (Response.new j s t hm).json = j ∧
    (Response.new j s t hm).status = s ∧
    (Response.new j s t hm).status_text = t ∧
    (Response.new j s t hm).header = hm ∧
    (∀ r : Response T, Response.jsonClone r = (r.json, r)) :=
  ⟨rfl, rfl, rfl, rfl, fun _ => rfl⟩

/-- C9: the `moved` reference of an account designates at most one
other account, and no constructible account value forms a cycle
through the `moved` relation: owned single-owner boxes build only
finite trees, on which the strict `moved` chain never returns to its
start. -/
theorem account_moved_unique_and_acyclic :
    (∀ a b c : Account, a.moved = some b → a.moved = some c → b = c) ∧
    (∀ a : Account, ¬ MovedReaches a a) := by
  constructor
  · intro a b c hb hc
    rw [hb] at hc
    exact Option.some.inj hc
  · intro a h
    exact absurd (movedReaches_sizeOf_lt a a h) (lt_irrefl _)

/-- Witness for C9: concrete accounts exercising both parts — the
unique target of `sampleMover` and the acyclicity at `sampleMover`. -/
theorem account_moved_unique_and_acyclic_witness :
    sampleTarget = sampleTarget ∧ ¬ MovedReaches sampleMover sampleMover :=
  ⟨account_moved_unique_and_acyclic.1 sampleMover sampleTarget sampleTarget
      rfl rfl,
   account_moved_unique_and_acyclic.2 sampleMover⟩
